import Mathlib

/-!
Verification development for a conversational medical-intake assistant.

The program under study consists of a keyword-based medical-fact extractor
with a bounded conversational memory (`medbot/memory.py`), a turn-phase
handler driving an external text-generation backend (`medbot/handlers.py`,
`medbot_1/model.py`, `medbot_1/prompts.py`), and a chat front end
(`medbot/interface.py`).  The Python sources are translated below into a
shallow embedding: strings are Lean `String`s (with character lists for the
scanning primitives), the wall clock consumed by `datetime.now()` is an
explicit counter threaded through the state, and the external generation
service is an explicit oracle value.
-/

set_option maxRecDepth 4000

/-- ASCII lower-casing of one character, modelling `str.lower()` on the
character range exercised by the program. -/
def lowerChar (c : Char) : Char :=
  if 'A' ≤ c && c ≤ 'Z' then Char.ofNat (c.toNat + 32) else c

/-- Lower-case a character list, modelling `user_input.lower()`. -/
def pyLower (s : List Char) : List Char := s.map lowerChar

/-- Does `hay` start with `needle`?  Building block for Python substring
containment and for literal pieces of the regular expressions. -/
def startsWithL : List Char → List Char → Bool
  | _, [] => true
  | [], _ :: _ => false
  | c :: cs, d :: ds => c == d && startsWithL cs ds

/-- Substring containment, modelling Python `needle in hay`. -/
def containsL (needle : List Char) : List Char → Bool
  | [] => startsWithL [] needle
  | c :: rest => startsWithL (c :: rest) needle || containsL needle rest

/-- Python `l[-n:]` for positive `n`: the last `n` elements. -/
def takeLast {α : Type} (n : Nat) (l : List α) : List α :=
  l.drop (l.length - n)

/-- Join a list of strings with a separator, modelling `sep.join(parts)`. -/
def joinWith (sep : String) : List String → String
  | [] => ""
  | x :: xs => xs.foldl (fun acc s => acc ++ sep ++ s) x

/-- Characters removed by Python `str.strip()` (ASCII whitespace). -/
def isPySpace (c : Char) : Bool :=
  c == ' ' || c == '\t' || c == '\n' || c == '\r' || c == '\x0b' || c == '\x0c'

/-- Python `str.strip()`. -/
def pyStrip (s : String) : String :=
  String.mk (((s.data.dropWhile isPySpace).reverse.dropWhile isPySpace).reverse)

/-- Word characters of the regex metacharacter `\w` (`[a-zA-Z0-9_]`). -/
def isWordChar (c : Char) : Bool :=
  ('a' ≤ c && c ≤ 'z') || ('A' ≤ c && c ≤ 'Z') || ('0' ≤ c && c ≤ '9') || c == '_'

/-- The word boundary `\b` between an optional previous character and an
optional next character. -/
def atBoundary : Option Char → Option Char → Bool
  | none, none => false
  | none, some c => isWordChar c
  | some c, none => isWordChar c
  | some a, some b => isWordChar a != isWordChar b

/-- Does `(?:pain|severity|scale)` match at the start of the list? -/
def kwHere (cs : List Char) : Bool :=
  startsWithL cs ("pain".data) || startsWithL cs ("severity".data) ||
    startsWithL cs ("scale".data)

/-- Does `.*(?:pain|severity|scale)` match starting here?  `.` does not
match a newline (no DOTALL flag in the source). -/
def dotStarKw : List Char → Bool
  | [] => false
  | c :: rest => kwHere (c :: rest) || (c != '\n' && dotStarKw rest)

/-- Attempt `\b([1-9]|10)\b.*(?:pain|severity|scale)` at the current
position, whose preceding character is `prev`; returns the text captured by
group 1 on success.  The alternative `[1-9]` is tried before `10`, as the
regex engine does. -/
def tryDigitAt (prev : Option Char) : List Char → Option String
  | [] => none
  | c :: rest =>
    if atBoundary prev (some c) then
      if '1' ≤ c && c ≤ '9' && atBoundary (some c) rest.head? && dotStarKw rest then
        some (String.mk [c])
      else
        match c, rest with
        | '1', '0' :: rest2 =>
          if atBoundary (some '0') rest2.head? && dotStarKw rest2 then some "10" else none
        | _, _ => none
    else none

/-- Leftmost-position search for the severity pattern, modelling
`re.search`; `prev` is the character before the current position. -/
def searchSeverity (prev : Option Char) : List Char → Option String
  | [] => tryDigitAt prev []
  | c :: rest =>
    match tryDigitAt prev (c :: rest) with
    | some cap => some cap
    | none => searchSeverity (some c) rest

/-- Full model of the severity search `re.search` with pattern
`\b([1-9]|10)\b.*(?:pain|severity|scale)`, returning the text captured by
group 1 of the leftmost match. -/
def severitySearch (cs : List Char) : Option String := searchSeverity none cs

/-- Rendering of `datetime.now().isoformat()` for the `n`-th clock tick;
the wall clock is modelled as a counter, so successive ticks give distinct
timestamp keys (sub-second precision). -/
def isoTimestamp (n : Nat) : String := "T" ++ toString n

/-- Python `dict` assignment `d[k] = v` on an insertion-ordered
association list: replace in place if the key exists, else append. -/
def updateAssoc (l : List (String × String)) (k v : String) : List (String × String) :=
  match l with
  | [] => [(k, v)]
  | (k', v') :: rest => if k' = k then (k, v) :: rest else (k', v') :: updateAssoc rest k v

/-- A message of the conversation log, `HumanMessage` or `AIMessage`. -/
inductive ChatMsg : Type where
  | human (content : String)
  | ai (content : String)
deriving DecidableEq

/-- The structured patient-context record of `MedicalMemoryManager`. -/
structure PatientContext : Type where
  symptoms : List String
  medications : List String
  allergies : List String
  timeline : List String
  severity_scores : List (String × String)
  session_start : String
deriving DecidableEq

/-- State of `MedicalMemoryManager`: the window size `k`, the underlying
chat-message log of the `ConversationBufferWindowMemory`, the structured
patient context, and the modelled wall clock. -/
structure MedicalMemoryManager : Type where
  k : Nat
  messages : List ChatMsg
  patient_context : PatientContext
  clock : Nat
deriving DecidableEq

/-- Model of `MedicalMemoryManager.__init__` / `reset_session`: empty message log,
empty context fields, `session_start` stamped from the clock. -/
def MedicalMemoryManager.init (k : Nat) (clock : Nat) : MedicalMemoryManager :=
  { k := k
    messages := []
    patient_context :=
      { symptoms := []
        medications := []
        allergies := []
        timeline := []
        severity_scores := []
        session_start := isoTimestamp clock }
    clock := clock + 1 }

/-- Symptom keyword list of `_extract_medical_info`. -/
def symptom_keywords : List String :=
  ["pain", "ache", "hurt", "sore", "cough", "fever", "nausea",
   "headache", "dizzy", "tired", "fatigue", "vomit", "swollen",
   "rash", "itch", "burn", "cramp", "bleed", "shortness of breath"]

/-- Timeline keyword list of `_extract_medical_info`. -/
def time_keywords : List String :=
  ["days", "weeks", "months", "hours", "yesterday", "today", "started", "began"]

/-- Medication keyword list of `_extract_medical_info`. -/
def med_keywords : List String :=
  ["taking", "medication", "medicine", "pills", "prescribed", "drug"]

/-- Allergy keyword list of `_extract_medical_info`. -/
def allergy_keywords : List String :=
  ["allergic", "allergy", "allergies", "reaction"]

/-- Body of `_extract_medical_info`, acting on the patient context and the
clock (the only state it reads or writes).  Branch order follows the
source: symptoms, timeline, severity, medications, allergies. -/
def extractPC (pc : PatientContext) (clock : Nat) (user_input : String) :
    PatientContext × Nat :=
  let user_lower := pyLower user_input.data
  let pc :=
    if symptom_keywords.any (fun k => containsL k.data user_lower) then
      if pc.symptoms.contains user_input then pc
      else { pc with symptoms := pc.symptoms ++ [user_input] }
    else pc
  let pc :=
    if time_keywords.any (fun k => containsL k.data user_lower) then
      { pc with timeline := pc.timeline ++ [user_input] }
    else pc
  let step :=
    match severitySearch user_lower with
    | some cap =>
      ({ pc with severity_scores := updateAssoc pc.severity_scores (isoTimestamp clock) cap },
        clock + 1)
    | none => (pc, clock)
  let pc := step.1
  let clock := step.2
  let pc :=
    if med_keywords.any (fun k => containsL k.data user_lower) then
      { pc with medications := pc.medications ++ [user_input] }
    else pc
  let pc :=
    if allergy_keywords.any (fun k => containsL k.data user_lower) then
      { pc with allergies := pc.allergies ++ [user_input] }
    else pc
  (pc, clock)

/-- Model of `MedicalMemoryManager._extract_medical_info`. -/
def MedicalMemoryManager.extract_medical_info (m : MedicalMemoryManager)
    (user_input : String) : MedicalMemoryManager :=
  let r := extractPC m.patient_context m.clock user_input
  { m with patient_context := r.1, clock := r.2 }

/-- Model of `MedicalMemoryManager.add_interaction`: append the user message, append
the assistant message, then extract facts from the user message only. -/
def MedicalMemoryManager.add_interaction (m : MedicalMemoryManager)
    (human_input ai_response : String) : MedicalMemoryManager :=
  let m := { m with messages := m.messages ++ [ChatMsg.human human_input] }
  let m := { m with messages := m.messages ++ [ChatMsg.ai ai_response] }
  m.extract_medical_info human_input

/-- The bounded buffer view of the `ConversationBufferWindowMemory` with
window size `k`: the last `2 * k` messages of the log (and empty when
`k = 0`), per the `buffer_as_messages` property of the library. -/
def messageWindow (m : MedicalMemoryManager) : List ChatMsg :=
  if m.k > 0 then takeLast (2 * m.k) m.messages else []

/-- Model of `MedicalMemoryManager.get_memory_context`: the last 6 messages rendered
as alternating `Patient:` / `Doctor:` lines. -/
def MedicalMemoryManager.get_memory_context (m : MedicalMemoryManager) : String :=
  let msgs := takeLast 6 m.messages
  joinWith "\n"
    (msgs.map fun msg =>
      match msg with
      | ChatMsg.human c => "Patient: " ++ c
      | ChatMsg.ai c => "Doctor: " ++ c)

/-- The structured snapshot assembled by `get_patient_summary` before JSON
serialization. -/
structure PatientSummary : Type where
  conversation_turns : Nat
  key_symptoms : List String
  timeline_info : List String
  medications : List String
  allergies : List String
  severity_scores : List (String × String)
deriving DecidableEq

/-- The field projections of `get_patient_summary`. -/
def summarySnapshot (m : MedicalMemoryManager) : PatientSummary :=
  { conversation_turns := m.messages.length / 2
    key_symptoms := takeLast 3 m.patient_context.symptoms
    timeline_info := takeLast 2 m.patient_context.timeline
    medications := m.patient_context.medications
    allergies := m.patient_context.allergies
    severity_scores := m.patient_context.severity_scores }

/-- JSON string escaping of one character as done by `json.dumps`. -/
def jsonEscapeChar (c : Char) : String :=
  if c = '"' then "\\\""
  else if c = '\\' then "\\\\"
  else if c = '\n' then "\\n"
  else if c = '\t' then "\\t"
  else if c = '\r' then "\\r"
  else String.mk [c]

/-- JSON escaping of a string body. -/
def jsonEscape (s : String) : String :=
  (s.data.map jsonEscapeChar).foldl (fun a b => a ++ b) ""

/-- A JSON string literal. -/
def jsonStrLit (s : String) : String := "\"" ++ jsonEscape s ++ "\""

/-- Indentation of `n` spaces. -/
def spaces (n : Nat) : String := String.mk (List.replicate n ' ')

/-- Rendering by `json.dumps(..., indent=2)` of a list of strings nested at
indentation `ind`. -/
def jsonStrList (ind : Nat) (l : List String) : String :=
  match l with
  | [] => "[]"
  | _ =>
    "[\n" ++ joinWith ",\n" (l.map fun s => spaces (ind + 2) ++ jsonStrLit s) ++
      "\n" ++ spaces ind ++ "]"

/-- Rendering by `json.dumps(..., indent=2)` of a string-to-string dict nested
at indentation `ind`. -/
def jsonStrObj (ind : Nat) (l : List (String × String)) : String :=
  match l with
  | [] => "\x7b\x7d"
  | _ =>
    "\x7b\n" ++
      joinWith ",\n" (l.map fun p => spaces (ind + 2) ++ jsonStrLit p.1 ++ ": " ++ jsonStrLit p.2) ++
      "\n" ++ spaces ind ++ "\x7d"

/-- Rendering by `json.dumps(summary, indent=2)` of the summary dict of
`get_patient_summary`, keys in insertion order. -/
def dumpsSummary (s : PatientSummary) : String :=
  "\x7b\n" ++
  "  " ++ jsonStrLit "conversation_turns" ++ ": " ++ toString s.conversation_turns ++ ",\n" ++
  "  " ++ jsonStrLit "key_symptoms" ++ ": " ++ jsonStrList 2 s.key_symptoms ++ ",\n" ++
  "  " ++ jsonStrLit "timeline_info" ++ ": " ++ jsonStrList 2 s.timeline_info ++ ",\n" ++
  "  " ++ jsonStrLit "medications" ++ ": " ++ jsonStrList 2 s.medications ++ ",\n" ++
  "  " ++ jsonStrLit "allergies" ++ ": " ++ jsonStrList 2 s.allergies ++ ",\n" ++
  "  " ++ jsonStrLit "severity_scores" ++ ": " ++ jsonStrObj 2 s.severity_scores ++
  "\n\x7d"

/-- Model of `MedicalMemoryManager.get_patient_summary`: render the snapshot as a
JSON string; the method reads the state and assigns nothing, which the
returned (unchanged) state component records. -/
def MedicalMemoryManager.get_patient_summary (m : MedicalMemoryManager) :
    String × MedicalMemoryManager :=
  (dumpsSummary (summarySnapshot m), m)

/-- Oracle for the external Gemini service: whether API configuration and
model construction succeed (`genai.configure` / `GenerativeModel`), the
error text when they do not, and the outcome of `generate_content` for a
given prompt and `max_output_tokens` budget (generated text, or the text of
the raised exception). -/
structure Backend : Type where
  load_ok : Bool
  load_err : String
  gen : String → Nat → Except String String

/-- State of `ModelManager`: `model` is `None` until a successful `load`. -/
structure ModelManager : Type where
  model : Option Unit
deriving DecidableEq

/-- Model of `ModelManager.load`: return immediately when already loaded; otherwise
initialize, and on failure raise the wrapped initialization error. -/
def ModelManager.load (mm : ModelManager) (b : Backend) : Except String ModelManager :=
  match mm.model with
  | some _ => Except.ok mm
  | none =>
    if b.load_ok then Except.ok { model := some () }
    else Except.error ("Failed to initialize Gemini API. Please check your API key. Error: " ++ b.load_err)

/-- The fixed apology returned by `ModelManager.generate` when the
generation call raises. -/
def generateApologyText : String :=
  "I apologize, but I encountered an error processing your request. Please try again or rephrase your question."

/-- Model of `ModelManager.generate`: load, then call the service; any exception of
the generation call itself is caught and replaced by the fixed apology
text, so only a load failure escapes. -/
def ModelManager.generate (mm : ModelManager) (b : Backend) (prompt : String)
    (max_new_tokens : Nat) : Except String (String × ModelManager) :=
  match mm.load b with
  | Except.error e => Except.error e
  | Except.ok mm' =>
    match b.gen prompt max_new_tokens with
    | Except.ok t => Except.ok (t, mm')
    | Except.error _ => Except.ok (generateApologyText, mm')

/-- The text `ModelManager.generate` hands back for a prompt once loading
succeeded: the generated text, or the fixed apology on a generation error. -/
def genOutcome (b : Backend) (prompt : String) (max_new_tokens : Nat) : String :=
  match b.gen prompt max_new_tokens with
  | Except.ok t => t
  | Except.error _ => generateApologyText

/-- The literal `CONSULTATION_PROMPT` from `prompts.py`. -/
def CONSULTATION_PROMPT : String :=
  "You are a professional virtual doctor. Your goal is to collect detailed information about the user\x27s health condition, symptoms, medical history, medications, lifestyle, and other relevant data.\n\nAsk 1-2 follow-up questions at a time to gather more details about:\n- Name and age\n- Detailed description of symptoms\n- Duration (when did it start?)\n- Severity (scale of 1-10)\n- Aggravating or alleviating factors\n- Related symptoms\n- Medical history\n- Current medications and allergies\n\nAfter collecting sufficient information (5-6 exchanges), summarize findings and suggest when they should seek professional care. Do NOT make specific diagnoses or recommend specific treatments.\n\nRespond empathetically and clearly. Always be professional and thorough."

/-- The formatted `MEDICINE_PROMPT.format(patient_info=..., memory_context=...)` from
`prompts.py`. -/
def medicinePromptText (patient_info memory_context : String) : String :=
  "You are a specialized medical assistant. Based on the patient information gathered, provide:\n\n1. Specific over-the-counter medicine with proper adult dosing instructions\n2. One practical home remedy that might help\n3. Clear guidance on when to seek professional medical care\n\nBe concise, practical, and focus only on general symptom relief and diagnosis.\n\nPatient information: " ++ patient_info ++ "\n\nPrevious conversation context: " ++ memory_context

/-- The instruction appended to the consultation prompt in the summary
phase of `respond`. -/
def summaryInstruction : String :=
  "\n\nNow provide a comprehensive summary of all the information gathered. Include assessment of severity and when professional care may be needed."

/-- The fixed disclaimer concatenated into every summary-phase reply. -/
def disclaimerText : String :=
  "**⚠️ IMPORTANT DISCLAIMER:** This is AI-generated advice for informational purposes only. This assessment is not a substitute for professional medical advice, diagnosis, or treatment. Please consult a licensed healthcare provider for proper medical evaluation and personalized care."

/-- The combined reply assembled in the summary phase of `respond`. -/
def finalResponseText (summary medicine_suggestions patient_summary : String) : String :=
  "**📋 COMPREHENSIVE MEDICAL SUMMARY:**\n" ++ summary ++
  "\n\n**💊 MEDICATION AND HOME CARE SUGGESTIONS:**\n" ++ medicine_suggestions ++
  "\n\n**📊 PATIENT CONTEXT SUMMARY:**\n" ++ patient_summary ++
  "\n\n" ++ disclaimerText

/-- The apology built in the `except` branch of `respond`; the details of
the caught exception are interpolated at the end. -/
def respondErrorMessage (e : String) : String :=
  "I apologize, but I encountered an error processing your request. This could be due to API connectivity issues. Please try again in a moment. Error details: " ++ e

/-- The module-level mutable state of `handlers.py`: the turn counter, the
shared memory manager and the shared model manager. -/
structure HandlerState : Type where
  conversation_turns : Nat
  memory : MedicalMemoryManager
  model : ModelManager

/-- Model of `build_gemini_prompt`: system prompt, optional memory-context block,
optional last-3-exchanges block, then the current utterance and the
`Doctor:` cue. -/
def build_gemini_prompt (mem : MedicalMemoryManager) (system_prompt : String)
    (history : List (String × String)) (user_input : String) : String :=
  let memory_context := mem.get_memory_context
  let prompt := system_prompt ++ "\n\n"
  let prompt :=
    if memory_context ≠ "" then
      prompt ++ "Previous conversation context:\n" ++ memory_context ++ "\n\n"
    else prompt
  let recent_history := if history.length > 3 then takeLast 3 history else history
  let prompt :=
    if recent_history ≠ [] then
      (recent_history.foldl
        (fun acc p =>
          acc ++ "Patient: " ++ p.1 ++ "\n" ++
            (if p.2 ≠ "" then "Doctor: " ++ p.2 ++ "\n" else ""))
        (prompt ++ "Recent conversation:\n")) ++ "\n"
    else prompt
  prompt ++ "Patient: " ++ user_input ++ "\n\nDoctor:"

/-- The `try` body of `respond`, after the turn counter has been bumped:
the gathering branch below 4 turns, the two-call summary branch from turn 4
on.  A load failure of the generation service propagates as the error. -/
def respondBody (st : HandlerState) (b : Backend) (message : String)
    (chat_history : List (String × String)) :
    Except String (String × List (String × String) × HandlerState) :=
  if st.conversation_turns < 4 then
    let prompt := build_gemini_prompt st.memory CONSULTATION_PROMPT chat_history message
    match st.model.generate b prompt 256 with
    | Except.error e => Except.error e
    | Except.ok (response, mm') =>
      Except.ok ("", chat_history ++ [(message, response)],
        { st with memory := st.memory.add_interaction message response, model := mm' })
  else
    let patient_summary := (st.memory.get_patient_summary).1
    let memory_context := st.memory.get_memory_context
    let summary_prompt :=
      build_gemini_prompt st.memory (CONSULTATION_PROMPT ++ summaryInstruction) chat_history message
    match st.model.generate b summary_prompt 500 with
    | Except.error e => Except.error e
    | Except.ok (summary, mm1) =>
      let full_patient_info :=
        "Patient Summary: " ++ patient_summary ++ "\n\nDetailed Assessment: " ++ summary
      let med_prompt := medicinePromptText full_patient_info memory_context
      match mm1.generate b med_prompt 400 with
      | Except.error e => Except.error e
      | Except.ok (medicine_suggestions, mm2) =>
        let final_response := finalResponseText summary medicine_suggestions patient_summary
        Except.ok ("", chat_history ++ [(message, final_response)],
          { st with memory := st.memory.add_interaction message final_response, model := mm2 })

/-- Model of `respond` from `handlers.py`: bump the turn counter, run the body, and
on any caught exception append the apology (with the exception text) to the
history instead of a model reply. -/
def respond (st : HandlerState) (b : Backend) (message : String)
    (chat_history : List (String × String)) :
    String × List (String × String) × HandlerState :=
  let st1 := { st with conversation_turns := st.conversation_turns + 1 }
  match respondBody st1 b message chat_history with
  | Except.ok r => r
  | Except.error e => ("", chat_history ++ [(message, respondErrorMessage e)], st1)

/-- The two consultation phases. -/
inductive Phase : Type where
  | GATHERING
  | SUMMARY
deriving DecidableEq

/-- The phase is derived from the turn counter: the branch condition
`conversation_turns < 4` of `respond`. -/
def phaseOf (turnCount : Nat) : Phase :=
  if turnCount < 4 then Phase.GATHERING else Phase.SUMMARY

/-- The initial module state of `handlers.py`: counter 0, a `k = 10` memory
manager, an unloaded model manager. -/
def initialHandlerState (clock : Nat) : HandlerState :=
  { conversation_turns := 0
    memory := MedicalMemoryManager.init 10 clock
    model := { model := none } }

/-- Model of `VoiceEnhancedInterface._format_message`: wrap raw text in the
two-row HTML table used by the chat widget. -/
def format_message (text : String) : String :=
  "<table style=\"width: 100%; border: none; border-collapse: collapse;\">\n" ++
  "<tr style=\"border: none;\">\n" ++
  "<td style=\"border: none; text-align: right; padding: 0 4px 2px 0; font-size: 1.2em; cursor: pointer;\" title=\"Click message to hear audio\">🔊</td>\n" ++
  "</tr>\n" ++
  "<tr style=\"border: none;\">\n" ++
  "<td class=\"message-text\" style=\"border: none; padding: 0; white-space: pre-wrap;\">" ++ text ++ "</td>\n" ++
  "</tr>\n" ++
  "</table>"

/-- The literal head of the extraction pattern of `_extract_text`. -/
def tdOpenLit : List Char := ("<td class=\"message-text\"").data

/-- Lazy capture `([\s\S]*?)</td>`: the characters up to the first
following `</td>`, or failure when there is none. -/
def captureToCloseTd : List Char → Option (List Char)
  | [] => none
  | c :: rest =>
    if startsWithL (c :: rest) ("</td>".data) then some []
    else (captureToCloseTd rest).map (fun l => c :: l)

/-- Attempt the pattern `<td class="message-text"[^>]*>([\s\S]*?)</td>` at
the current position. -/
def extractTextAt (cs : List Char) : Option (List Char) :=
  if startsWithL cs tdOpenLit then
    let rest := cs.drop tdOpenLit.length
    match rest.dropWhile (fun c => c != '>') with
    | [] => none
    | _ :: body => captureToCloseTd body
  else none

/-- Leftmost search for the `_extract_text` pattern. -/
def searchExtractText : List Char → Option (List Char)
  | [] => extractTextAt []
  | c :: rest =>
    match extractTextAt (c :: rest) with
    | some cap => some cap
    | none => searchExtractText rest

/-- Model of `VoiceEnhancedInterface._extract_text` on a string input: the stripped
first capture, or the input itself when the pattern does not occur. -/
def extract_text (s : String) : String :=
  match searchExtractText s.data with
  | some cap => pyStrip (String.mk cap)
  | none => s

/-- The function `_extract_text` applied to a chat cell that may be `None`
(`str(None) = "None"` through the non-string branch). -/
def extract_cell : Option String → String
  | some s => extract_text s
  | none => "None"

/-- Python truthiness of an optional chat cell (`None` and `""` falsy). -/
def truthyCell : Option String → Bool
  | some s => s != ""
  | none => false

/-- Model of `VoiceEnhancedInterface.user_message_handler`: drop blank input;
otherwise append the formatted user message with no reply yet. -/
def user_message_handler (user_message : String)
    (chat_history : List (Option String × Option String)) :
    String × List (Option String × Option String) :=
  if pyStrip user_message = "" then ("", chat_history)
  else ("", chat_history ++ [(some (format_message user_message), none)])

/-- Model of `VoiceEnhancedInterface.bot_response_handler`: no-op unless the last
entry awaits a reply; otherwise un-format the pending message and the
completed history, run `respond`, and write the formatted reply back into
the last entry. -/
def bot_response_handler (st : HandlerState) (b : Backend)
    (chat_history : List (Option String × Option String)) :
    HandlerState × List (Option String × Option String) :=
  match chat_history.getLast? with
  | none => (st, chat_history)
  | some (_, some _) => (st, chat_history)
  | some (fu, none) =>
    let raw_user_msg := extract_cell fu
    let raw_history :=
      chat_history.dropLast.filterMap fun p =>
        if truthyCell p.1 && truthyCell p.2 then
          some (extract_cell p.1, extract_cell p.2)
        else none
    let r := respond st b raw_user_msg raw_history
    let raw_bot_response :=
      match r.2.1.getLast? with
      | some p => p.2
      | none => ""
    (r.2.2, chat_history.dropLast ++ [(fu, some (format_message raw_bot_response))])

/-- A generation service that loads and answers every prompt with a fixed
text; used to exercise the handlers on concrete runs. -/
def backendOk : Backend :=
  { load_ok := true, load_err := "", gen := fun _ _ => Except.ok "Understood." }

/-- A generation service whose API initialization fails with error text
`e`. -/
def backendLoadFail (e : String) : Backend :=
  { load_ok := false, load_err := e, gen := fun _ _ => Except.ok "Understood." }

theorem add_interaction_k (m : MedicalMemoryManager) (u a : String) :
    (m.add_interaction u a).k = m.k := rfl

theorem messageWindow_spec (m : MedicalMemoryManager) :
    (messageWindow m).length ≤ 2 * m.k ∧ messageWindow m <:+ m.messages := by
  unfold messageWindow takeLast
  split
  · constructor
    · rw [List.length_drop]
      omega
    · exact ⟨m.messages.take (m.messages.length - 2 * m.k), List.take_append_drop _ _⟩
  · exact ⟨Nat.zero_le _, List.nil_suffix⟩

/-- C2: after any number of `add_interaction` calls the window view of the
conversation memory holds at most `2 * k` messages, and it is a suffix of
the full message log, so the messages outside it are exactly the oldest
ones. -/
theorem c2_message_window_bounded (m : MedicalMemoryManager)
    (interactions : List (String × String)) :
    (messageWindow (interactions.foldl (fun acc p => acc.add_interaction p.1 p.2) m)).length
        ≤ 2 * m.k
    ∧ messageWindow (interactions.foldl (fun acc p => acc.add_interaction p.1 p.2) m) <:+
        (interactions.foldl (fun acc p => acc.add_interaction p.1 p.2) m).messages := by
  have hk : ∀ (l : List (String × String)) (m0 : MedicalMemoryManager),
      (l.foldl (fun acc p => acc.add_interaction p.1 p.2) m0).k = m0.k := by
    intro l
    induction l with
    | nil => intro m0; rfl
    | cons p l ih => intro m0; simpa [List.foldl_cons] using ih (m0.add_interaction p.1 p.2)
  refine ⟨?_, (messageWindow_spec _).2⟩
  have := (messageWindow_spec (interactions.foldl (fun acc p => acc.add_interaction p.1 p.2) m)).1
  rwa [hk] at this

/-- C6: `get_patient_summary` leaves the memory state unchanged, and a
second call without an intervening `add_interaction` returns the same
serialized summary and the same structured snapshot. -/
theorem c6_get_patient_summary_idempotent (m : MedicalMemoryManager) :
    (m.get_patient_summary).2 = m
    ∧ ((m.get_patient_summary).2.get_patient_summary).1 = (m.get_patient_summary).1
    ∧ summarySnapshot ((m.get_patient_summary).2) = summarySnapshot m :=
  ⟨rfl, rfl, rfl⟩

/-- C8: the patient context produced by `add_interaction` does not depend
on the assistant text; only the user text is scanned by the extractor. -/
theorem c8_patient_context_ignores_assistant (m : MedicalMemoryManager)
    (userText a1 a2 : String) :
    (m.add_interaction userText a1).patient_context
      = (m.add_interaction userText a2).patient_context := rfl

theorem generate_ok (mm : ModelManager) (b : Backend) (p : String) (tok : Nat)
    (h : mm.model = some () ∨ b.load_ok = true) :
    mm.generate b p tok = Except.ok (genOutcome b p tok, ⟨some ()⟩) := by
  obtain ⟨mo⟩ := mm
  unfold ModelManager.generate ModelManager.load genOutcome
  cases mo with
  | some u =>
    cases u
    cases hg : b.gen p tok <;> simp [hg]
  | none =>
    rcases h with h | h
    · simp at h
    · simp only [h, if_true]
      cases hg : b.gen p tok <;> simp [hg]

/-- C9: once the model is loaded, `ModelManager.generate` always returns
normally — the exceptions of the generation call are caught inside it and
replaced by the fixed apology string — so the exception branch of
`respond` cannot be reached through a generation failure. -/
theorem c9_generate_never_raises (mm : ModelManager) (b : Backend) (prompt : String)
    (tok : Nat) (h : mm.model = some ()) :
    (∃ t, mm.generate b prompt tok = Except.ok (t, mm))
    ∧ (∀ e, b.gen prompt tok = Except.error e →
        mm.generate b prompt tok = Except.ok (generateApologyText, mm)) := by
  obtain ⟨mo⟩ := mm
  cases h
  constructor
  · exact ⟨genOutcome b prompt tok, generate_ok _ _ _ _ (Or.inl rfl)⟩
  · intro e he
    have := generate_ok ⟨some ()⟩ b prompt tok (Or.inl rfl)
    rw [this, genOutcome, he]

/-- A generation service that loads but whose `generate_content` call
raises. -/
def backendGenFail : Backend :=
  { load_ok := true, load_err := "", gen := fun _ _ => Except.error "quota exceeded" }

theorem c9_witness :
    ModelManager.generate ⟨some ()⟩ backendGenFail "p" 5
      = Except.ok (generateApologyText, ⟨some ()⟩) :=
  (c9_generate_never_raises ⟨some ()⟩ backendGenFail "p" 5 rfl).2 "quota exceeded" rfl

theorem extractPC_symptoms (pc : PatientContext) (clock : Nat) (u : String) :
    (extractPC pc clock u).1.symptoms =
      if symptom_keywords.any (fun k => containsL k.data (pyLower u.data)) then
        if pc.symptoms.contains u then pc.symptoms else pc.symptoms ++ [u]
      else pc.symptoms := by
  cases hs : severitySearch (pyLower u.data) <;>
    simp only [extractPC, hs] <;> split_ifs <;> rfl

theorem extractPC_timeline (pc : PatientContext) (clock : Nat) (u : String) :
    (extractPC pc clock u).1.timeline =
      if time_keywords.any (fun k => containsL k.data (pyLower u.data)) then
        pc.timeline ++ [u]
      else pc.timeline := by
  cases hs : severitySearch (pyLower u.data) <;>
    simp only [extractPC, hs] <;> split_ifs <;> rfl

theorem extractPC_medications (pc : PatientContext) (clock : Nat) (u : String) :
    (extractPC pc clock u).1.medications =
      if med_keywords.any (fun k => containsL k.data (pyLower u.data)) then
        pc.medications ++ [u]
      else pc.medications := by
  cases hs : severitySearch (pyLower u.data) <;>
    simp only [extractPC, hs] <;> split_ifs <;> rfl

theorem extractPC_allergies (pc : PatientContext) (clock : Nat) (u : String) :
    (extractPC pc clock u).1.allergies =
      if allergy_keywords.any (fun k => containsL k.data (pyLower u.data)) then
        pc.allergies ++ [u]
      else pc.allergies := by
  cases hs : severitySearch (pyLower u.data) <;>
    simp only [extractPC, hs] <;> split_ifs <;> rfl

theorem extractPC_severity (pc : PatientContext) (clock : Nat) (u : String) :
    (extractPC pc clock u).1.severity_scores =
      match severitySearch (pyLower u.data) with
      | some cap => updateAssoc pc.severity_scores (isoTimestamp clock) cap
      | none => pc.severity_scores := by
  cases hs : severitySearch (pyLower u.data) <;>
    simp only [extractPC, hs] <;> split_ifs <;> rfl

/-- Counterexample to C3: the utterance `"it started today"` matches the
timeline keyword list, and two turns with this same utterance store it
twice in `timeline` — only the symptoms branch has a duplicate guard. -/
theorem c3_counterexample :
    (((MedicalMemoryManager.init 10 0).add_interaction "it started today" "Understood.").add_interaction
        "it started today" "Understood.").patient_context.timeline
      = ["it started today", "it started today"] := by decide

/-- C3 amended: every appended entry is the verbatim utterance; the
symptoms list alone is guarded against duplicates (and so stays duplicate
free across turns), while timeline, medications and allergies are appended
without any duplicate check. -/
theorem c3_verbatim_append_dedup (m : MedicalMemoryManager) (u a : String) :
    ((m.add_interaction u a).patient_context.symptoms = m.patient_context.symptoms
      ∨ (u ∉ m.patient_context.symptoms
          ∧ (m.add_interaction u a).patient_context.symptoms
              = m.patient_context.symptoms ++ [u]))
    ∧ (m.patient_context.symptoms.Nodup →
        (m.add_interaction u a).patient_context.symptoms.Nodup)
    ∧ ((m.add_interaction u a).patient_context.timeline = m.patient_context.timeline
      ∨ (m.add_interaction u a).patient_context.timeline = m.patient_context.timeline ++ [u])
    ∧ ((m.add_interaction u a).patient_context.medications = m.patient_context.medications
      ∨ (m.add_interaction u a).patient_context.medications
          = m.patient_context.medications ++ [u])
    ∧ ((m.add_interaction u a).patient_context.allergies = m.patient_context.allergies
      ∨ (m.add_interaction u a).patient_context.allergies
          = m.patient_context.allergies ++ [u]) := by
  have hpc : (m.add_interaction u a).patient_context
      = (extractPC m.patient_context m.clock u).1 := rfl
  have hsym := extractPC_symptoms m.patient_context m.clock u
  have htl := extractPC_timeline m.patient_context m.clock u
  have hmed := extractPC_medications m.patient_context m.clock u
  have hall := extractPC_allergies m.patient_context m.clock u
  refine ⟨?_, ?_, ?_, ?_, ?_⟩
  · rw [hpc, hsym]
    split_ifs with h1 h2
    · exact Or.inl rfl
    · exact Or.inr ⟨by simpa using h2, rfl⟩
    · exact Or.inl rfl
  · intro hnd
    rw [hpc, hsym]
    split_ifs with h1 h2
    · exact hnd
    · refine List.Nodup.append hnd (List.nodup_singleton u) ?_
      intro x hx hx'
      rcases List.mem_singleton.mp hx' with rfl
      exact absurd hx (by simpa using h2)
    · exact hnd
  · rw [hpc, htl]; split_ifs <;> [exact Or.inr rfl; exact Or.inl rfl]
  · rw [hpc, hmed]; split_ifs <;> [exact Or.inr rfl; exact Or.inl rfl]
  · rw [hpc, hall]; split_ifs <;> [exact Or.inr rfl; exact Or.inl rfl]

theorem c3_witness :
    (((MedicalMemoryManager.init 10 0).add_interaction "I have a headache" "Understood.").add_interaction
        "I have a headache" "Understood.").patient_context.symptoms.Nodup :=
  (c3_verbatim_append_dedup
      ((MedicalMemoryManager.init 10 0).add_interaction "I have a headache" "Understood.")
      "I have a headache" "Understood.").2.1 (by decide)

theorem tryDigitAt_range (prev : Option Char) (cs : List Char) (cap : String)
    (h : tryDigitAt prev cs = some cap) :
    cap = "10" ∨ ∃ c, ('1' ≤ c ∧ c ≤ '9') ∧ cap = String.mk [c] := by
  cases cs with
  | nil => simp [tryDigitAt] at h
  | cons c rest =>
    simp only [tryDigitAt] at h
    split at h
    · split at h
      · rename_i hcond
        simp only [Bool.and_eq_true, decide_eq_true_eq] at hcond
        obtain ⟨⟨⟨h1, h2⟩, -⟩, -⟩ := hcond
        exact Or.inr ⟨c, ⟨h1, h2⟩, (Option.some.inj h).symm⟩
      · split at h
        · split at h
          · exact Or.inl (Option.some.inj h).symm
          · exact absurd h (by simp)
        · exact absurd h (by simp)
    · exact absurd h (by simp)

theorem searchSeverity_range (prev : Option Char) (cs : List Char) (cap : String)
    (h : searchSeverity prev cs = some cap) :
    cap = "10" ∨ ∃ c, ('1' ≤ c ∧ c ≤ '9') ∧ cap = String.mk [c] := by
  induction cs generalizing prev with
  | nil => exact tryDigitAt_range prev [] cap h
  | cons c rest ih =>
    rw [searchSeverity] at h
    cases ht : tryDigitAt prev (c :: rest) with
    | some cap2 =>
      rw [ht] at h
      exact (Option.some.inj h) ▸ tryDigitAt_range prev (c :: rest) cap2 ht
    | none =>
      rw [ht] at h
      exact ih (some c) h

/-- C4: whenever the severity regex matches the lower-cased utterance, the
extractor stores exactly one new entry, keyed by the current timestamp,
whose captured value is a digit 1–9 or 10 (the first satisfying span of the
utterance); in particular `"my pain is about 7 on a scale"` stores the
single capture `"7"`, and of two satisfying spans only the first is kept. -/
theorem c4_severity_extraction :
    (∀ (m : MedicalMemoryManager) (u cap : String),
        severitySearch (pyLower u.data) = some cap →
        (m.extract_medical_info u).patient_context.severity_scores
            = updateAssoc m.patient_context.severity_scores (isoTimestamp m.clock) cap
          ∧ (cap = "10" ∨ ∃ c, ('1' ≤ c ∧ c ≤ '9') ∧ cap = String.mk [c]))
    ∧ severitySearch (pyLower ("my pain is about 7 on a scale").data) = some "7"
    ∧ ((MedicalMemoryManager.init 10 0).extract_medical_info
          "my pain is about 7 on a scale").patient_context.severity_scores
        = [(isoTimestamp 1, "7")]
    ∧ severitySearch (pyLower ("3 pain and 9 pain").data) = some "3" := by
  refine ⟨?_, by decide, by decide, by decide⟩
  intro m u cap h
  constructor
  · have := extractPC_severity m.patient_context m.clock u
    rw [h] at this
    exact this
  · exact searchSeverity_range none (pyLower u.data) cap h

theorem c4_witness :
    ((MedicalMemoryManager.init 10 0).extract_medical_info
        "my pain is about 7 on a scale").patient_context.severity_scores
      = updateAssoc (MedicalMemoryManager.init 10 0).patient_context.severity_scores
          (isoTimestamp (MedicalMemoryManager.init 10 0).clock) "7"
    ∧ ("7" = "10" ∨ ∃ c, ('1' ≤ c ∧ c ≤ '9') ∧ "7" = String.mk [c]) :=
  c4_severity_extraction.1 (MedicalMemoryManager.init 10 0)
    "my pain is about 7 on a scale" "7" (by decide)

/-- C10: at a position reading `"10"`, the first alternative `[1-9]` of the
severity pattern is rejected by the trailing word boundary (a digit
follows), so the capture can only be the full `"10"`, never the bare
`"1"`; concretely, `"pain is 10 on the scale"` stores the value `"10"`. -/
theorem c10_ten_captured_fully :
    (∀ (prev : Option Char) (rest : List Char),
        tryDigitAt prev ('1' :: '0' :: rest) = none
          ∨ tryDigitAt prev ('1' :: '0' :: rest) = some "10")
    ∧ severitySearch (pyLower ("pain is 10 on the scale").data) = some "10"
    ∧ ((MedicalMemoryManager.init 10 0).extract_medical_info
          "pain is 10 on the scale").patient_context.severity_scores
        = [(isoTimestamp 1, "10")] := by
  refine ⟨?_, by decide, by decide⟩
  intro prev rest
  simp only [tryDigitAt]
  have hb : atBoundary (some '1') (('0' :: rest).head?) = false := rfl
  simp only [hb, Bool.and_false, Bool.false_and, Bool.false_eq_true, if_false]
  split
  · split
    · exact Or.inr rfl
    · exact Or.inl rfl
  · exact Or.inl rfl

/-- Counterexample to C5: the apology appended on a caught failure is not
a fixed message — the text of the caught exception is interpolated into
it, so two different backend failures append two different messages. -/
theorem c5_counterexample :
    (respond (initialHandlerState 0) (backendLoadFail "error A") "hello" []).2.1
        = [("hello", respondErrorMessage
            "Failed to initialize Gemini API. Please check your API key. Error: error A")]
    ∧ (respond (initialHandlerState 0) (backendLoadFail "error B") "hello" []).2.1
        = [("hello", respondErrorMessage
            "Failed to initialize Gemini API. Please check your API key. Error: error B")]
    ∧ decide ((respond (initialHandlerState 0) (backendLoadFail "error A") "hello" []).2.1
        = (respond (initialHandlerState 0) (backendLoadFail "error B") "hello" []).2.1) = false := by
  refine ⟨by decide, by decide, by decide⟩

/-- C5 amended: any failure raised during a turn is caught at the
`respond` boundary and never propagated; the turn counter stays
incremented, the memory and model state are untouched (nothing partial is
recorded), and an apologetic message — the fixed template with the
details of the exception interpolated — is appended to the history in place of
a model reply, so the session remains usable. -/
theorem c5_failure_contained (st : HandlerState) (b : Backend) (msg : String)
    (hist : List (String × String)) (hm : st.model.model = none)
    (hb : b.load_ok = false) :
    respond st b msg hist
      = ("", hist ++ [(msg, respondErrorMessage
            ("Failed to initialize Gemini API. Please check your API key. Error: " ++ b.load_err))],
          { st with conversation_turns := st.conversation_turns + 1 }) := by
  obtain ⟨t, mem, ⟨mo⟩⟩ := st
  cases hm
  have hbody : ∀ n, respondBody { conversation_turns := n, memory := mem, model := ⟨none⟩ } b msg hist
      = Except.error
          ("Failed to initialize Gemini API. Please check your API key. Error: " ++ b.load_err) := by
    intro n
    unfold respondBody ModelManager.generate ModelManager.load
    simp only [hb, Bool.false_eq_true, if_false]
    split <;> rfl
  simp only [respond]
  rw [hbody]

theorem c5_witness :
    respond (initialHandlerState 0) (backendLoadFail "boom") "hi" []
      = ("", [] ++ [("hi", respondErrorMessage
            ("Failed to initialize Gemini API. Please check your API key. Error: "
              ++ (backendLoadFail "boom").load_err))],
          { initialHandlerState 0 with
              conversation_turns := (initialHandlerState 0).conversation_turns + 1 }) :=
  c5_failure_contained (initialHandlerState 0) (backendLoadFail "boom") "hi" [] rfl rfl

/-- Counterexample to C7: `respond` itself has no blank-input guard — on a
whitespace-only utterance it still increments the turn counter, calls the
backend, and records the exchange in memory and history. -/
theorem c7_counterexample :
    (respond (initialHandlerState 0) backendOk "   " []).2.2.conversation_turns = 1
    ∧ (respond (initialHandlerState 0) backendOk "   " []).2.2.memory.messages
        = [ChatMsg.human "   ", ChatMsg.ai "Understood."]
    ∧ (respond (initialHandlerState 0) backendOk "   " []).2.1
        = [("   ", "Understood.")] := by
  refine ⟨by decide, by decide, by decide⟩

/-- C7 amended: blank utterances are filtered one layer above the core —
`user_message_handler` returns the chat history unchanged for an empty or
whitespace-only message, and on an unchanged (settled) history the
subsequent `bot_response_handler` performs no operation: `respond` is never
invoked, the turn counter is not incremented, and no state is recorded.
`respond` itself does not guard against blank input. -/
theorem c7_blank_input_filtered (st : HandlerState) (b : Backend) (msg : String)
    (ch : List (Option String × Option String))
    (hblank : pyStrip msg = "")
    (hsettled : ch = [] ∨ ∃ p, ch.getLast? = some p ∧ p.2.isSome) :
    user_message_handler msg ch = ("", ch)
    ∧ bot_response_handler st b ch = (st, ch) := by
  constructor
  · unfold user_message_handler
    rw [if_pos hblank]
  · unfold bot_response_handler
    rcases hsettled with rfl | ⟨⟨q, a⟩, hlast, hsome⟩
    · rfl
    · obtain ⟨v, rfl⟩ := Option.isSome_iff_exists.mp hsome
      rw [hlast]

theorem c7_witness :
    user_message_handler " \t " [(some "q", some "a")] = ("", [(some "q", some "a")])
    ∧ bot_response_handler (initialHandlerState 0) backendOk [(some "q", some "a")]
        = (initialHandlerState 0, [(some "q", some "a")]) :=
  c7_blank_input_filtered (initialHandlerState 0) backendOk " \t "
    [(some "q", some "a")] (by decide)
    (Or.inr ⟨(some "q", some "a"), rfl, rfl⟩)

/-- C1: the phase is `GATHERING` exactly while the turn counter is below 4;
a call made with counter `n - 1` (the `n`-th call) appends the plain model
reply when `n < 4`, and from the 4th call onward — on every such call, not
only the 4th — it appends the combined reply assembled by the two-call
summary flow, which always carries the summary, the medication suggestions,
the patient-context snapshot and the fixed disclaimer. -/
theorem c1_phase_and_summary (st : HandlerState) (b : Backend) (msg : String)
    (hist : List (String × String))
    (h : st.model.model = some () ∨ b.load_ok = true) :
    (phaseOf (st.conversation_turns + 1) = Phase.GATHERING
        ↔ st.conversation_turns + 1 < 4)
    ∧ (st.conversation_turns + 1 < 4 →
        (respond st b msg hist).2.1
          = hist ++ [(msg,
              genOutcome b (build_gemini_prompt st.memory CONSULTATION_PROMPT hist msg) 256)])
    ∧ (4 ≤ st.conversation_turns + 1 →
        (respond st b msg hist).2.1
          = hist ++ [(msg,
              finalResponseText
                (genOutcome b
                  (build_gemini_prompt st.memory (CONSULTATION_PROMPT ++ summaryInstruction)
                    hist msg) 500)
                (genOutcome b
                  (medicinePromptText
                    ("Patient Summary: " ++ (st.memory.get_patient_summary).1 ++
                      "\n\nDetailed Assessment: " ++
                      genOutcome b
                        (build_gemini_prompt st.memory
                          (CONSULTATION_PROMPT ++ summaryInstruction) hist msg) 500)
                    st.memory.get_memory_context) 400)
                ((st.memory.get_patient_summary).1))])
    ∧ (∀ s ms ps : String, ∃ t, finalResponseText s ms ps = t ++ disclaimerText) := by
  refine ⟨?_, ?_, ?_, ?_⟩
  · by_cases hn : st.conversation_turns + 1 < 4 <;> simp [phaseOf, hn]
  · intro hn
    simp only [respond, respondBody]
    rw [if_pos hn, generate_ok st.model b _ 256 h]
  · intro hn
    simp only [respond, respondBody]
    rw [if_neg (by omega : ¬(st.conversation_turns + 1 < 4)),
      generate_ok st.model b _ 500 h]
    simp only [show ∀ p : String,
        ModelManager.generate ⟨some ()⟩ b p 400
          = Except.ok (genOutcome b p 400, ⟨some ()⟩) from
      fun p => generate_ok ⟨some ()⟩ b p 400 (Or.inl rfl)]
  · intro s ms ps
    exact ⟨"**📋 COMPREHENSIVE MEDICAL SUMMARY:**\n" ++ s ++
      "\n\n**💊 MEDICATION AND HOME CARE SUGGESTIONS:**\n" ++ ms ++
      "\n\n**📊 PATIENT CONTEXT SUMMARY:**\n" ++ ps ++ "\n\n", rfl⟩

/-- The module state of `handlers.py` after three completed turns. -/
def stThreeTurns : HandlerState :=
  { initialHandlerState 0 with conversation_turns := 3 }

theorem c1_witness :
    ((respond (initialHandlerState 0) backendOk "hi" []).2.1
        = [] ++ [("hi",
            genOutcome backendOk
              (build_gemini_prompt (initialHandlerState 0).memory CONSULTATION_PROMPT [] "hi")
              256)])
    ∧ (respond stThreeTurns backendOk "hi" []).2.1
        = [] ++ [("hi",
            finalResponseText
              (genOutcome backendOk
                (build_gemini_prompt stThreeTurns.memory
                  (CONSULTATION_PROMPT ++ summaryInstruction) [] "hi") 500)
              (genOutcome backendOk
                (medicinePromptText
                  ("Patient Summary: " ++ (stThreeTurns.memory.get_patient_summary).1 ++
                    "\n\nDetailed Assessment: " ++
                    genOutcome backendOk
                      (build_gemini_prompt stThreeTurns.memory
                        (CONSULTATION_PROMPT ++ summaryInstruction) [] "hi") 500)
                  stThreeTurns.memory.get_memory_context) 400)
              ((stThreeTurns.memory.get_patient_summary).1))] :=
  ⟨(c1_phase_and_summary (initialHandlerState 0) backendOk "hi" [] (Or.inr rfl)).2.1
      (by decide),
    (c1_phase_and_summary stThreeTurns backendOk "hi" [] (Or.inr rfl)).2.2.1
      (by decide)⟩
